import Mathlib

/-!
Verification of the news-aggregation and sentiment-scoring pipeline of
`DL_stock_prediction` (files `functions/load_data.py` and
`functions/sentiment.py`) against its design specification.

Modelling conventions:
* JSON string fields that may be absent or `null` are `Option String`
  (`none` = absent/null); a cell holding such a value becomes `Cell.null`,
  mirroring how `pandas` stores Python `None`.
* A provider response is `Option (list of items)`: `none` models a JSON
  body without the expected top-level field (`articles` / `results`),
  `some l` a body carrying the list `l`.
* A `pandas` DataFrame is a header row (`columns`) plus row-major data
  (`rows`), each row a list of cells aligned with `columns`.
* Python exceptions are `Except` errors; `print` output is returned as an
  explicit list of emitted messages.
* Float sentiment scores are modelled as exact rationals; the external
  VADER / FinBERT models are oracle parameters (`String → Rat`,
  `String → String`), so "the model is never invoked" is expressed as the
  result being independent of the oracle.
* Python `text.strip()` is falsy exactly when every character of `text` is
  whitespace; the blank-check of the scorers is modelled as that predicate.
-/

/-- A value stored in one DataFrame cell. `null` models Python `None`/`NaN`,
`num` a float score (as an exact rational), `int` an integer score. -/
inductive Cell where
  | str (s : String)
  | num (q : Rat)
  | int (n : Int)
  | null
deriving DecidableEq, Repr

/-- Embed an optional JSON string field into a cell. -/
def optCell : Option String → Cell
  | some s => Cell.str s
  | none => Cell.null

/-- A row-major pandas DataFrame: named columns plus rows of cells. -/
structure DataFrame where
  columns : List String
  rows : List (List Cell)
deriving DecidableEq, Repr

/-- One element of the `articles` array of a NewsAPI day response, with the
three fields the code reads (`title`, `publishedAt`, `description`). -/
structure Article where
  title : Option String
  publishedAt : Option String
  description : Option String
deriving DecidableEq, Repr

/-- The tuple `(article["title"], article["publishedAt"], article["description"])`
built by the extraction comprehension of `load_news_data`, as a DataFrame row. -/
def articleRow (a : Article) : List Cell :=
  [optCell a.title, optCell a.publishedAt, optCell a.description]

/-- The day-by-day `while date <= today` loop of `LoadData.load_news_data`:
the input list holds one response per day of the window, in order.  Returns
the accumulated `all_articles` list together with the number of HTTP
requests issued.  A well-formed response with an empty `articles` list hits
`continue` (nothing accumulated, loop goes on); a response without an
`articles` field hits `break` (no further day is requested). -/
def newsLoop : List (Option (List Article)) → List Article × Nat
  | [] => ([], 0)
  | none :: _ => ([], 1)
  | some arts :: rest =>
      if arts.isEmpty then
        ((newsLoop rest).1, (newsLoop rest).2 + 1)
      else
        (arts ++ (newsLoop rest).1, (newsLoop rest).2 + 1)

/-- `LoadData.load_news_data`: run the day loop over the responses of the window
and build `pd.DataFrame(headlines, columns=["headline", "date", "description"])`. -/
def load_news_data (responses : List (Option (List Article))) : DataFrame :=
  { columns := ["headline", "date", "description"],
    rows := ((newsLoop responses).1).map articleRow }

/-- Number of HTTP requests `load_news_data` issues on a given window. -/
def news_requests (responses : List (Option (List Article))) : Nat :=
  (newsLoop responses).2

theorem newsLoop_cons_some (arts : List Article) (rest : List (Option (List Article))) :
    newsLoop (some arts :: rest) = (arts ++ (newsLoop rest).1, (newsLoop rest).2 + 1) := by
  by_cases h : arts.isEmpty
  · have harts : arts = [] := List.isEmpty_iff.mp h
    simp [newsLoop, h, harts]
  · simp [newsLoop, h]

/-- **C1**: for the chronological adapter, a well-formed day with an empty
article list does not terminate the day loop: in a 3-day window where day 1
returns `arts1`, day 2 returns a well-formed empty list and day 3 returns the
two articles `a, b`, the record count is `arts1.length + 2`. -/
theorem C1_empty_day_does_not_truncate (arts1 : List Article) (a b : Article) :
    (load_news_data [some arts1, some [], some [a, b]]).rows.length
      = arts1.length + 2 := by
  simp only [load_news_data, newsLoop_cons_some]
  simp [newsLoop]

theorem newsLoop_prefix_break (pre : List (List Article))
    (rest : List (Option (List Article))) :
    newsLoop (pre.map some ++ none :: rest)
      = ((newsLoop (pre.map some)).1, pre.length + 1) := by
  induction pre with
  | nil => simp [newsLoop]
  | cons d pre ih => simp [newsLoop_cons_some, ih]

theorem news_requests_get_none (responses : List (Option (List Article)))
    (k : Nat) (hk : responses.get? k = some none) :
    news_requests responses ≤ k + 1 := by
  induction responses generalizing k with
  | nil => simp at hk
  | cons r rest ih =>
      cases r with
      | none => simp [news_requests, newsLoop]
      | some arts =>
          cases k with
          | zero => simp at hk
          | succ k =>
              have h := ih k (by simpa using hk)
              have : news_requests (some arts :: rest) = news_requests rest + 1 := by
                simp [news_requests, newsLoop_cons_some]
              omega

/-- **C2**: for the chronological adapter, a day whose response lacks an
`articles` field stops iteration immediately.  First part: if day `k` of the
window is such a day, at most `k + 1` requests are ever issued (one per day
up to and including day `k`), so no later day is queried.  Second part: when
the days before the malformed one are well-formed, the returned table is
exactly the table built from those earlier days, whatever responses the
abandoned remainder of the window would have produced. -/
theorem C2_missing_articles_stops_loop :
    (∀ (responses : List (Option (List Article))) (k : Nat),
        responses.get? k = some none → news_requests responses ≤ k + 1) ∧
    (∀ (pre : List (List Article)) (rest : List (Option (List Article))),
        news_requests (pre.map some ++ none :: rest) = pre.length + 1 ∧
        load_news_data (pre.map some ++ none :: rest)
          = load_news_data (pre.map some)) := by
  refine ⟨news_requests_get_none, fun pre rest => ?_⟩
  constructor
  · simp [news_requests, newsLoop_prefix_break]
  · simp [load_news_data, newsLoop_prefix_break]

/-- Witness for C2 at a concrete window: day 1 returns one article, day 2 is
malformed, day 3 would return an article but is never requested. -/
theorem C2_missing_articles_stops_loop_witness :
    news_requests [some [⟨some "t1", some "d1", some "x1"⟩], none,
        some [⟨some "t3", some "d3", some "x3"⟩]] ≤ 2 ∧
    news_requests [some [⟨some "t1", some "d1", some "x1"⟩], none,
        some [⟨some "t3", some "d3", some "x3"⟩]] = 2 ∧
    load_news_data [some [⟨some "t1", some "d1", some "x1"⟩], none,
        some [⟨some "t3", some "d3", some "x3"⟩]]
      = load_news_data [some [⟨some "t1", some "d1", some "x1"⟩]] := by
  have h1 := C2_missing_articles_stops_loop.1
      [some [⟨some "t1", some "d1", some "x1"⟩], none,
        some [⟨some "t3", some "d3", some "x3"⟩]] 1 rfl
  have h2 := C2_missing_articles_stops_loop.2
      [[⟨some "t1", some "d1", some "x1"⟩]]
      [some [⟨some "t3", some "d3", some "x3"⟩]]
  exact ⟨h1, h2.1, h2.2⟩

theorem newsLoop_all_wellformed (days : List (List Article)) :
    (newsLoop (days.map some)).1 = days.flatten := by
  induction days with
  | nil => simp [newsLoop]
  | cons d days ih => simp [newsLoop_cons_some, ih]

/-- **C3, counterexample**: the extraction comprehension of `load_news_data`
performs no filtering at all — an article whose title is the empty string is
admitted into the table, so the returned table holds a record with an empty
headline.  This refutes "items lacking a title are skipped during
extraction, so every record in the returned table has a non-empty headline". -/
theorem C3_counterexample :
    (load_news_data [some [⟨some "", some "2024-01-01", some "d"⟩]]).rows
      = [[Cell.str "", Cell.str "2024-01-01", Cell.str "d"]] ∧
    Cell.str "" ∈ (load_news_data [some [⟨some "", some "2024-01-01", some "d"⟩]]).rows.map
      (fun r => r.headD Cell.null) := by
  constructor
  · rfl
  · simp [load_news_data, newsLoop_cons_some, newsLoop, articleRow, optCell]

/-- **C3, amended**: extraction skips nothing.  Over any window of
well-formed responses, every accumulated item yields exactly one record
(record count equals the total article count, titleless or not), and each
headline of each record is the title of the item verbatim — `null` when the title is
absent, the empty string when the title is empty. -/
theorem C3_amended_extraction_is_verbatim (days : List (List Article)) :
    (load_news_data (days.map some)).rows.length = days.flatten.length ∧
    (load_news_data (days.map some)).rows.map (fun r => r.headD Cell.null)
      = days.flatten.map (fun a => optCell a.title) := by
  constructor
  · simp only [load_news_data, newsLoop_all_wellformed, List.length_map]
  · simp only [load_news_data, newsLoop_all_wellformed, List.map_map]
    rfl

/-- One element of the `results` array of an APITube response, with the
three fields the code reads (`published_at`, `title`, `description`). -/
structure ApitubeItem where
  published_at : Option String
  title : Option String
  description : Option String
deriving DecidableEq, Repr

/-- The record dict built per result item by `load_apitube_data`
(`{"date": ..., "headline": ..., "description": ...}`), as a DataFrame row. -/
def itemRow (it : ApitubeItem) : List Cell :=
  [optCell it.published_at, optCell it.title, optCell it.description]

/-- `pd.DataFrame(records)` for the record dicts of `load_apitube_data`:
columns come from the dict keys in insertion order (`date`, `headline`,
`description`); an empty record list yields a DataFrame with no columns at
all, since pandas infers no schema from zero dicts. -/
def apitubeRecordsFrame (items : List ApitubeItem) : DataFrame :=
  if items.isEmpty then { columns := [], rows := [] }
  else { columns := ["date", "headline", "description"], rows := items.map itemRow }

/-- The kept-first scan behind pandas `drop_duplicates` (default
`keep="first"`): a row survives exactly when its key cell has not appeared
on an earlier row. -/
def dedupFirst (key : List Cell → Cell) (seen : List Cell) :
    List (List Cell) → List (List Cell)
  | [] => []
  | r :: rest =>
      if key r ∈ seen then dedupFirst key seen rest
      else r :: dedupFirst key (key r :: seen) rest

/-- The key cell `drop_duplicates` compares for a row: the entry in the
subset column. -/
def rowKey (cols : List String) (subsetCol : String) (r : List Cell) : Cell :=
  r.getD (cols.indexOf subsetCol) Cell.null

/-- `df.drop_duplicates(subset=[subsetCol])`: pandas first short-circuits on
an empty frame (`if self.empty`: an axis of length zero) and returns it
unchanged; only on a non-empty frame does it validate the subset, raising
`KeyError` when the subset column is absent, and otherwise keeps the first
row for each distinct key value, preserving row order. -/
def drop_duplicates (df : DataFrame) (subsetCol : String) : Except String DataFrame :=
  if df.rows.isEmpty || df.columns.isEmpty then .ok df
  else if subsetCol ∈ df.columns then
    .ok { columns := df.columns,
          rows := dedupFirst (rowKey df.columns subsetCol) [] df.rows }
  else .error ("KeyError: " ++ subsetCol)

/-- `LoadData.load_apitube_data`: when the response lacks a `results` field,
print a warning and return `pd.DataFrame()`; otherwise build the record
frame and deduplicate on `headline`.  The second component of a successful
result collects the printed messages. -/
def load_apitube_data (resp : Option (List ApitubeItem)) :
    Except String (DataFrame × List String) :=
  match resp with
  | none => .ok ({ columns := [], rows := [] },
      ["No results found in APITube response."])
  | some items =>
      match drop_duplicates (apitubeRecordsFrame items) "headline" with
      | .ok df => .ok (df, [])
      | .error e => .error e

theorem dedupFirst_sublist (key : List Cell → Cell) (seen : List Cell)
    (rows : List (List Cell)) : List.Sublist (dedupFirst key seen rows) rows := by
  induction rows generalizing seen with
  | nil => simp [dedupFirst]
  | cons r rest ih =>
      by_cases h : key r ∈ seen
      · simp only [dedupFirst, if_pos h]
        exact List.Sublist.cons r (ih seen)
      · simp only [dedupFirst, if_neg h]
        exact List.Sublist.cons₂ r (ih (key r :: seen))

theorem dedupFirst_filter_seen (key : List Cell → Cell) (seen : List Cell)
    (rows : List (List Cell)) (v : Cell) (hv : v ∈ seen) :
    (dedupFirst key seen rows).filter (fun r => key r == v) = [] := by
  induction rows generalizing seen with
  | nil => simp [dedupFirst]
  | cons r rest ih =>
      by_cases h : key r ∈ seen
      · simp only [dedupFirst, if_pos h]
        exact ih seen hv
      · have hne : (key r == v) = false := by
          simp only [beq_eq_false_iff_ne]
          intro he
          exact h (he ▸ hv)
        simp only [dedupFirst, if_neg h, List.filter_cons, hne, if_neg Bool.false_ne_true]
        exact ih (key r :: seen) (List.mem_cons_of_mem _ hv)

theorem dedupFirst_filter_first (key : List Cell → Cell) (seen : List Cell)
    (rows : List (List Cell)) (v : Cell) (hv : v ∉ seen) :
    (dedupFirst key seen rows).filter (fun r => key r == v)
      = (rows.find? (fun r => key r == v)).toList := by
  induction rows generalizing seen with
  | nil => simp [dedupFirst]
  | cons r rest ih =>
      by_cases h : key r ∈ seen
      · have hne : (key r == v) = false := by
          simp only [beq_eq_false_iff_ne]
          intro he
          exact hv (he ▸ h)
        rw [List.find?_cons_of_neg _ (by simp [hne])]
        simp only [dedupFirst, if_pos h]
        exact ih seen hv
      · by_cases hkv : key r = v
        · have hpos : (key r == v) = true := beq_iff_eq.mpr hkv
          rw [List.find?_cons_of_pos (p := fun r => key r == v) _ hpos]
          simp only [dedupFirst, if_neg h, List.filter_cons, hpos, if_pos trivial]
          have hmem : v ∈ key r :: seen := by simp [hkv]
          rw [dedupFirst_filter_seen key (key r :: seen) rest v hmem]
          rfl
        · have hne : (key r == v) = false := by
            simp only [beq_eq_false_iff_ne]
            exact hkv
          have hv2 : v ∉ key r :: seen := by
            simp only [List.mem_cons, not_or]
            exact ⟨fun he => hkv he.symm, hv⟩
          rw [List.find?_cons_of_neg _ (by simp [hne])]
          simp only [dedupFirst, if_neg h, List.filter_cons, hne,
            if_neg Bool.false_ne_true]
          exact ih (key r :: seen) hv2

theorem load_apitube_ok (items : List ApitubeItem) (hne : items ≠ []) :
    load_apitube_data (some items)
      = .ok ({ columns := ["date", "headline", "description"],
               rows := dedupFirst (fun r => r.getD 1 Cell.null) []
                 (items.map itemRow) }, []) := by
  have hni : items.isEmpty = false := by
    cases items with
    | nil => exact absurd rfl hne
    | cons a l => rfl
  have hframe : apitubeRecordsFrame items
      = { columns := ["date", "headline", "description"], rows := items.map itemRow } := by
    simp [apitubeRecordsFrame, hni]
  have hrows : (items.map itemRow).isEmpty = false := by
    cases items with
    | nil => exact absurd rfl hne
    | cons a l => rfl
  simp only [load_apitube_data, hframe, drop_duplicates]
  rw [if_neg (by simp [hrows])]
  rw [if_pos (by simp)]
  rfl

/-- **C9**: when the response of the offset adapter lacks a `results` field, the
call returns an empty table together with the anomaly report, and no
exception propagates to the caller (the result is `ok`, in contrast to the
loop-stop policy of the chronological adapter on the same condition). -/
theorem C9_missing_results_nonfatal :
    load_apitube_data none
      = .ok ({ columns := [], rows := [] },
          ["No results found in APITube response."]) := rfl

/-- The columns of an offset-adapter call result (`[]` when the call raised). -/
def resultColumns (r : Except String (DataFrame × List String)) : List String :=
  match r with
  | .ok (df, _) => df.columns
  | .error _ => []

/-- **C8, counterexample**: on the anomaly path the offset adapter returns
`pd.DataFrame()`, which has no columns at all — in particular no `headline`
column — refuting "the returned news table has exactly the three columns
{headline, date, description} regardless of which adapter contributed rows". -/
theorem C8_counterexample :
    resultColumns (load_apitube_data none) = [] ∧
    "headline" ∉ resultColumns (load_apitube_data none) := by
  exact ⟨rfl, by simp [resultColumns, load_apitube_data]⟩

/-- **C8, amended**: the table of the chronological adapter always has
exactly the columns `headline`, `date`, `description`; the offset adapter
yields the same three columns (in order `date`, `headline`, `description`)
whenever the response carries at least one result item.  But on a response
without a `results` field the offset adapter returns a table with no
columns at all, so the three-column invariant does not hold regardless of
adapter outcome. -/
theorem C8_amended_schema (responses : List (Option (List Article)))
    (items : List ApitubeItem) (hne : items ≠ []) :
    (load_news_data responses).columns = ["headline", "date", "description"] ∧
    resultColumns (load_apitube_data (some items))
      = ["date", "headline", "description"] := by
  refine ⟨rfl, ?_⟩
  rw [load_apitube_ok items hne]
  rfl

/-- Witness for C8 (amended) at a one-day window and a one-item response. -/
theorem C8_amended_schema_witness :
    (load_news_data [some [⟨some "t", some "d", some "x"⟩]]).columns
      = ["headline", "date", "description"] ∧
    resultColumns (load_apitube_data (some [⟨some "p", some "T", some "x"⟩]))
      = ["date", "headline", "description"] := by
  exact C8_amended_schema [some [⟨some "t", some "d", some "x"⟩]]
    [⟨some "p", some "T", some "x"⟩] (by simp)

/-- **C4**: for the offset adapter, every headline value occurring among the
result items of the response appears on exactly one record of the returned table
— in particular two items sharing one headline yield a single record. -/
theorem C4_dedup_unique_headline (items : List ApitubeItem) (df : DataFrame)
    (w : List String) (v : Cell)
    (hok : load_apitube_data (some items) = .ok (df, w))
    (hv : v ∈ items.map (fun it => optCell it.title)) :
    (df.rows.filter (fun r => r.getD 1 Cell.null == v)).length = 1 := by
  have hne : items ≠ [] := by
    intro h
    subst h
    simp at hv
  rw [load_apitube_ok items hne] at hok
  have hdf : df = DataFrame.mk ["date", "headline", "description"]
      (dedupFirst (fun r => r.getD 1 Cell.null) [] (items.map itemRow)) := by
    cases hok
    rfl
  subst hdf
  rw [dedupFirst_filter_first (fun r => r.getD 1 Cell.null) []
    (items.map itemRow) v (by simp)]
  obtain ⟨it, hit, hvt⟩ := List.mem_map.mp hv
  have hsome : ((items.map itemRow).find? (fun r => r.getD 1 Cell.null == v)).isSome := by
    rw [List.find?_isSome]
    exact ⟨itemRow it, List.mem_map_of_mem _ hit, by simp [itemRow, hvt]⟩
  cases hfind : (items.map itemRow).find? (fun r => r.getD 1 Cell.null == v) with
  | none => rw [hfind] at hsome; simp at hsome
  | some r => rfl

/-- Witness for C4: two result items share the headline `T`; the output
table carries exactly one record with that headline. -/
theorem C4_dedup_unique_headline_witness :
    ((DataFrame.mk ["date", "headline", "description"]
        [[Cell.str "p1", Cell.str "T", Cell.str "x1"]]).rows.filter
      (fun r => r.getD 1 Cell.null == Cell.str "T")).length = 1 := by
  exact C4_dedup_unique_headline
    [⟨some "p1", some "T", some "x1"⟩, ⟨some "p2", some "T", some "x2"⟩]
    (DataFrame.mk ["date", "headline", "description"]
      [[Cell.str "p1", Cell.str "T", Cell.str "x1"]])
    [] (Cell.str "T") (by rfl) (by simp [optCell])

/-- **C10**: the deduplication of the offset adapter is first-wins and
order-preserving: for every headline value occurring in the response, the
records of the output carrying that headline are exactly the singleton list
holding the first item with that headline in provider order, and the output
rows form a sublist of the provider-ordered rows. -/
theorem C10_dedup_first_wins (items : List ApitubeItem) (df : DataFrame)
    (w : List String) (v : Cell)
    (hok : load_apitube_data (some items) = .ok (df, w))
    (hv : v ∈ items.map (fun it => optCell it.title)) :
    df.rows.filter (fun r => r.getD 1 Cell.null == v)
      = ((items.map itemRow).find? (fun r => r.getD 1 Cell.null == v)).toList ∧
    List.Sublist df.rows (items.map itemRow) := by
  have hne : items ≠ [] := by
    intro h
    subst h
    simp at hv
  rw [load_apitube_ok items hne] at hok
  have hdf : df = DataFrame.mk ["date", "headline", "description"]
      (dedupFirst (fun r => r.getD 1 Cell.null) [] (items.map itemRow)) := by
    cases hok
    rfl
  subst hdf
  exact ⟨dedupFirst_filter_first _ [] _ v (by simp), dedupFirst_sublist _ [] _⟩

/-- Witness for C10: three items, the first and third sharing headline `T`;
the kept record for `T` is the first item, and output order follows input
order. -/
theorem C10_dedup_first_wins_witness :
    ((DataFrame.mk ["date", "headline", "description"]
        [[Cell.str "p1", Cell.str "T", Cell.str "x1"],
         [Cell.str "p2", Cell.str "U", Cell.str "x2"]]).rows.filter
      (fun r => r.getD 1 Cell.null == Cell.str "T")
      = [[Cell.str "p1", Cell.str "T", Cell.str "x1"]]) ∧
    List.Sublist (DataFrame.mk ["date", "headline", "description"]
        [[Cell.str "p1", Cell.str "T", Cell.str "x1"],
         [Cell.str "p2", Cell.str "U", Cell.str "x2"]]).rows
      ([⟨some "p1", some "T", some "x1"⟩, ⟨some "p2", some "U", some "x2"⟩,
        (⟨some "p3", some "T", some "x3"⟩ : ApitubeItem)].map itemRow) := by
  have h := C10_dedup_first_wins
    [⟨some "p1", some "T", some "x1"⟩, ⟨some "p2", some "U", some "x2"⟩,
      ⟨some "p3", some "T", some "x3"⟩]
    (DataFrame.mk ["date", "headline", "description"]
      [[Cell.str "p1", Cell.str "T", Cell.str "x1"],
       [Cell.str "p2", Cell.str "U", Cell.str "x2"]])
    [] (Cell.str "T") (by rfl) (by simp [optCell])
  exact ⟨by rw [h.1]; rfl, h.2⟩

/-- The string a scorer sees in a cell: Python `isinstance(text, str)` holds
exactly for `Cell.str` values; every other cell is a non-string. -/
def cellText : Cell → Option String
  | Cell.str s => some s
  | _ => none

/-- The pandas column read `df[name]`: the cell of each row in the named
column (`Cell.null` when a row is too short). -/
def colValues (df : DataFrame) (name : String) : List Cell :=
  df.rows.map (fun r => r.getD (df.columns.indexOf name) Cell.null)

/-- The pandas column write `df[name] = vals`: replaces the column in place
when it exists, otherwise appends it on the right of the schema. -/
def setColumn (df : DataFrame) (name : String) (vals : List Cell) : DataFrame :=
  if name ∈ df.columns then
    { columns := df.columns,
      rows := (df.rows.zip vals).map
        (fun p => p.1.set (df.columns.indexOf name) p.2) }
  else
    { columns := df.columns ++ [name],
      rows := (df.rows.zip vals).map (fun p => p.1 ++ [p.2]) }

/-- `Sentiment._get_vader_sentiment`, with the VADER analyzer as an oracle
returning the compound polarity (a float, modelled exactly): non-strings and
strings blank after stripping score `0.0` without consulting the oracle. -/
def get_vader_sentiment (vader : String → Rat) (text : Option String) : Rat :=
  match text with
  | none => 0
  | some s => if s.data.all Char.isWhitespace then 0 else vader s

/-- `Sentiment._get_finbert_sentiment`, with the FinBERT classifier as an
oracle returning the label of its top result: non-strings and blank strings
score `0` without consulting the oracle; otherwise the lowercased label maps
`positive` to `1`, `negative` to `-1` and anything else to `0`. -/
def get_finbert_sentiment (finbert : String → String) (text : Option String) : Int :=
  match text with
  | none => 0
  | some s =>
      if s.data.all Char.isWhitespace then 0
      else
        if (finbert s).toLower = "positive" then 1
        else if (finbert s).toLower = "negative" then -1
        else 0

/-- `Sentiment.add_vader_sentiment`: raises before touching the frame when
the `headline` column is absent, otherwise writes the `sentiment` column. -/
def add_vader_sentiment (vader : String → Rat) (df : DataFrame) :
    Except String DataFrame :=
  if "headline" ∈ df.columns then
    .ok (setColumn df "sentiment"
      ((colValues df "headline").map
        (fun c => Cell.num (get_vader_sentiment vader (cellText c)))))
  else .error "Missing \x27headline\x27 column in input DataFrame."

/-- `Sentiment.add_finbert_sentiment`: raises before touching the frame when
the `description` column is absent, otherwise writes `finbert_sentiment`. -/
def add_finbert_sentiment (finbert : String → String) (df : DataFrame) :
    Except String DataFrame :=
  if "description" ∈ df.columns then
    .ok (setColumn df "finbert_sentiment"
      ((colValues df "description").map
        (fun c => Cell.int (get_finbert_sentiment finbert (cellText c)))))
  else .error "Missing \x27description\x27 column in input DataFrame."

/-- **C5**: each annotate operation invoked on a table missing its required
source column fails with the SchemaError message of the source, for every
table state and every oracle; the error carries no table, so no partially
modified table can be observed, and the check precedes any column write. -/
theorem C5_schema_error_on_missing_column (vader : String → Rat)
    (finbert : String → String) (df : DataFrame) :
    ("headline" ∉ df.columns →
      add_vader_sentiment vader df
        = .error "Missing \x27headline\x27 column in input DataFrame.") ∧
    ("description" ∉ df.columns →
      add_finbert_sentiment finbert df
        = .error "Missing \x27description\x27 column in input DataFrame.") := by
  constructor
  · intro h
    simp [add_vader_sentiment, h]
  · intro h
    simp [add_finbert_sentiment, h]

/-- Witness for C5 on a concrete one-column table lacking both source
columns, with concrete oracles. -/
theorem C5_schema_error_on_missing_column_witness :
    add_vader_sentiment (fun _ => 1) (DataFrame.mk ["date"] [[Cell.str "x"]])
      = .error "Missing \x27headline\x27 column in input DataFrame." ∧
    add_finbert_sentiment (fun _ => "positive")
        (DataFrame.mk ["date"] [[Cell.str "x"]])
      = .error "Missing \x27description\x27 column in input DataFrame." := by
  have h := C5_schema_error_on_missing_column (fun _ => 1) (fun _ => "positive")
    (DataFrame.mk ["date"] [[Cell.str "x"]])
  exact ⟨h.1 (by simp), h.2 (by simp)⟩

/-- The neutral-input guard shared by both scorers: a non-string, or a
string that Python `text.strip()` maps to the empty (falsy) string. -/
def isBlankInput : Option String → Bool
  | none => true
  | some s => s.data.all Char.isWhitespace

/-- **C6**: on every empty, whitespace-only or non-string input, the lexicon
scorer returns exactly `0.0` and the classifier scorer exactly `0`, and both
results are independent of the underlying model oracle — the model is never
invoked. -/
theorem C6_blank_input_neutral_without_model (v1 v2 : String → Rat)
    (f1 f2 : String → String) (t : Option String) (h : isBlankInput t = true) :
    get_vader_sentiment v1 t = 0 ∧ get_finbert_sentiment f1 t = 0 ∧
    get_vader_sentiment v1 t = get_vader_sentiment v2 t ∧
    get_finbert_sentiment f1 t = get_finbert_sentiment f2 t := by
  cases t with
  | none => exact ⟨rfl, rfl, rfl, rfl⟩
  | some s =>
      have hs : s.data.all Char.isWhitespace = true := by
        simpa [isBlankInput] using h
      refine ⟨?_, ?_, ?_, ?_⟩ <;>
        simp [get_vader_sentiment, get_finbert_sentiment, hs]

/-- Witness for C6 on the whitespace-only string, with two pairs of
disagreeing oracles. -/
theorem C6_blank_input_neutral_without_model_witness :
    get_vader_sentiment (fun _ => 1) (some "  ") = 0 ∧
    get_finbert_sentiment (fun _ => "positive") (some "  ") = 0 ∧
    get_vader_sentiment (fun _ => 1) (some "  ")
      = get_vader_sentiment (fun _ => -1) (some "  ") ∧
    get_finbert_sentiment (fun _ => "positive") (some "  ")
      = get_finbert_sentiment (fun _ => "negative") (some "  ") := by
  exact C6_blank_input_neutral_without_model (fun _ => 1) (fun _ => -1)
    (fun _ => "positive") (fun _ => "negative") (some "  ") (by decide)

/-- Python truthiness of an `os.getenv` result: unset (`None`) and the empty
string are falsy, every other string is truthy. -/
def envTruthy : Option String → Bool
  | none => false
  | some s => !s.isEmpty

/-- The `missing` list `_load_api_keys` accumulates before raising: one
entry per falsy key, in the fixed order NewsAPI then APITube. -/
def missingKeyNames (newsKey apitubeKey : Option String) : List String :=
  (if envTruthy newsKey then [] else ["NewsAPI"])
    ++ (if envTruthy apitubeKey then [] else ["APITube"])

/-- The `ValueError` message of `_load_api_keys`, quoting every missing name. -/
def missingKeyMessage (missing : List String) : String :=
  "Missing API key(s): " ++ String.intercalate ", " missing
    ++ ". Check your .env file."

/-- `LoadData._load_api_keys`: reads both environment entries, collects all
falsy ones into `missing`, raises one `ValueError` naming them all when
`missing` is non-empty, and otherwise returns the pair of key values.  The
error carries the missing-name list and the rendered message. -/
def load_api_keys (newsKey apitubeKey : Option String) :
    Except (List String × String) (String × String) :=
  let missing := missingKeyNames newsKey apitubeKey
  if missing.isEmpty then .ok (newsKey.getD "", apitubeKey.getD "")
  else .error (missing, missingKeyMessage missing)

/-- **C7**: when both secrets are present (truthy), resolution returns both
values and does not fail; when one or more are absent, it fails with a
single error whose missing-name list contains the name of every absent key — not
just the first — and whose message renders exactly that list. -/
theorem C7_api_keys_all_missing_listed (newsKey apitubeKey : Option String) :
    (envTruthy newsKey = true → envTruthy apitubeKey = true →
      load_api_keys newsKey apitubeKey
        = .ok (newsKey.getD "", apitubeKey.getD "")) ∧
    (envTruthy newsKey = false →
      ∃ e, load_api_keys newsKey apitubeKey = .error e ∧
        "NewsAPI" ∈ e.1 ∧ e.2 = missingKeyMessage e.1) ∧
    (envTruthy apitubeKey = false →
      ∃ e, load_api_keys newsKey apitubeKey = .error e ∧
        "APITube" ∈ e.1 ∧ e.2 = missingKeyMessage e.1) := by
  refine ⟨fun h1 h2 => ?_, fun h1 => ?_, fun h2 => ?_⟩
  · simp [load_api_keys, missingKeyNames, h1, h2]
  · refine ⟨(missingKeyNames newsKey apitubeKey, missingKeyMessage
      (missingKeyNames newsKey apitubeKey)), ?_, ?_, rfl⟩
    · simp [load_api_keys, missingKeyNames, h1]
    · simp [missingKeyNames, h1]
  · refine ⟨(missingKeyNames newsKey apitubeKey, missingKeyMessage
      (missingKeyNames newsKey apitubeKey)), ?_, ?_, rfl⟩
    · simp [load_api_keys, missingKeyNames, h2]
    · simp [missingKeyNames, h2]

/-- Witness for C7: with the NewsAPI key unset and the APITube key set to
the empty string, resolution reports both names in one error. -/
theorem C7_api_keys_all_missing_listed_witness :
    (∃ e, load_api_keys none (some "") = .error e ∧
      "NewsAPI" ∈ e.1 ∧ e.2 = missingKeyMessage e.1) ∧
    (∃ e, load_api_keys none (some "") = .error e ∧
      "APITube" ∈ e.1 ∧ e.2 = missingKeyMessage e.1) := by
  have h := C7_api_keys_all_missing_listed none (some "")
  exact ⟨h.2.1 rfl, h.2.2 rfl⟩
